import Mathlib

/-!
Shallow embedding of `homebridge-philips-somneo` (two TypeScript files:
`src/platform.ts`, the platform accessory file) in Lean 4.

The platform (`SomneoPlatform`) listens for SSDP responses, deduplicates
them by USN, and creates/restores one accessory per unique device.  The
accessory (`SomneoAccessory`) keeps an in-memory state struct, serves
characteristic reads from it, accepts power/brightness writes into it,
and refreshes sensor values by polling a device HTTP endpoint.

Effects (logging, HTTP requests, callback invocations, host-API calls)
are made explicit as lists of effect values returned alongside the new
state, so that frame properties ("no network call", "only logged") are
statable.  JavaScript numbers carry only load/store operations in this
code, so they are embedded as rationals (`ℚ`); `21.5` is exact.
-/

namespace Somneo

/-- The value stored in `somneoState` of `SomneoAccessory` (lines 23–30
of the accessory file): `On`, `Brightness`, `Temperature`, `Humidity`,
`LightLevel`, `Sound`. -/
structure SomneoState where
  On : Bool
  Brightness : ℚ
  Temperature : ℚ
  Humidity : ℚ
  LightLevel : ℚ
  Sound : ℚ
deriving Repr, DecidableEq

/-- The initializer of `somneoState`:
`{ On: false, Brightness: 100, Temperature: 0, Humidity: 0, LightLevel: 0, Sound: 0 }`. -/
def initialSomneoState : SomneoState :=
  { On := false
    Brightness := 100
    Temperature := 0
    Humidity := 0
    LightLevel := 0
    Sound := 0 }

/-- HomeKit characteristics the accessory pushes or serves. -/
inductive CharKind where
  | currentTemperature
  | currentRelativeHumidity
  | currentAmbientLightLevel
  | on
  | brightness
deriving Repr, DecidableEq

/-- A `CharacteristicValue` handed to a HomeKit callback: boolean or number. -/
inductive CVal where
  | b (v : Bool)
  | q (v : ℚ)
deriving Repr, DecidableEq

/-- Observable effects of the accessory's handlers and of `updateSensorData`. -/
inductive AccEffect where
  /-- `this.platform.log.info(...)` -/
  | logInfo
  /-- `instance.get(endpoint)`: an HTTP request to the device. -/
  | httpGet (url : String)
  /-- `service.getCharacteristic(c).updateValue(v)`: push to the host. -/
  | pushCharacteristic (c : CharKind) (v : ℚ)
  /-- `callback(null)` from a SET handler: success, no value. -/
  | callbackSet
  /-- `callback(null, v)` from a GET handler: success with value `v`. -/
  | callbackGet (v : CVal)
deriving Repr, DecidableEq

/-- The four numeric fields of the JSON body returned by
`https://<addr>/di/v1/products/1/wusrd`. -/
structure SensorResponse where
  mstmp : ℚ
  msrhu : ℚ
  mslux : ℚ
  mssnd : ℚ
deriving Repr, DecidableEq

/-- Outcome of one poll of the sensor endpoint: the promise either
rejects (network failure, handled by `.catch`) or resolves with a body. -/
inductive PollResult where
  | failure
  | success (r : SensorResponse)
deriving Repr, DecidableEq

/-- `SomneoAccessory.updateSensorData` (lines 96–123): issue a GET to the
sensor endpoint; on success overwrite the four sensor fields and push
temperature, humidity and light level to the characteristic layer; on
failure only log.  The poll outcome is an explicit argument. -/
def updateSensorData (address : String) (st : SomneoState) (res : PollResult) :
    SomneoState × List AccEffect :=
  let endpoint := "https://" ++ address ++ "/di/v1/products/1/wusrd"
  match res with
  | .failure => (st, [.httpGet endpoint, .logInfo])
  | .success r =>
    let st' := { st with
      Temperature := r.mstmp
      Humidity := r.msrhu
      LightLevel := r.mslux
      Sound := r.mssnd }
    (st', [.httpGet endpoint, .logInfo,
           .pushCharacteristic .currentTemperature st'.Temperature,
           .pushCharacteristic .currentRelativeHumidity st'.Humidity,
           .pushCharacteristic .currentAmbientLightLevel st'.LightLevel])

/-- `SomneoAccessory.getTemperature` (lines 126–130): log, then
`callback(null, this.somneoState.Temperature)`.  GET handlers do not
change the state, so only the effect list is returned. -/
def getTemperature (st : SomneoState) : List AccEffect :=
  [.logInfo, .callbackGet (.q st.Temperature)]

/-- `SomneoAccessory.getHumidity` (lines 132–136). -/
def getHumidity (st : SomneoState) : List AccEffect :=
  [.logInfo, .callbackGet (.q st.Humidity)]

/-- `SomneoAccessory.getLightLevel` (lines 138–142). -/
def getLightLevel (st : SomneoState) : List AccEffect :=
  [.logInfo, .callbackGet (.q st.LightLevel)]

/-- `SomneoAccessory.getOn` (lines 172–183). -/
def getOn (st : SomneoState) : List AccEffect :=
  [.logInfo, .callbackGet (.b st.On)]

/-- `SomneoAccessory.setOn` (lines 148–157): store `value as boolean`
into `somneoState.On`, log, `callback(null)`. -/
def setOn (st : SomneoState) (value : Bool) : SomneoState × List AccEffect :=
  ({ st with On := value }, [.logInfo, .callbackSet])

/-- `SomneoAccessory.setBrightness` (lines 189–198): store
`value as number` into `somneoState.Brightness`, log, `callback(null)`. -/
def setBrightness (st : SomneoState) (value : ℚ) : SomneoState × List AccEffect :=
  ({ st with Brightness := value }, [.logInfo, .callbackSet])

/-- One state-mutating operation the event loop may dispatch on an
accessory between two points in time: a power write, a brightness write,
or a completed poll (GET handlers never mutate the state). -/
inductive AccOp where
  | setOn (v : Bool)
  | setBrightness (v : ℚ)
  | poll (address : String) (res : PollResult)
deriving Repr, DecidableEq

/-- Whether an operation is a successful sensor poll. -/
def AccOp.isSuccessPoll : AccOp → Bool
  | .poll _ (.success _) => true
  | _ => false

/-- State after dispatching one operation. -/
def stepOp (st : SomneoState) : AccOp → SomneoState
  | .setOn v => (setOn st v).1
  | .setBrightness v => (setBrightness st v).1
  | .poll a res => (updateSensorData a st res).1

/-- State after dispatching a sequence of operations in order. -/
def runOps (st : SomneoState) : List AccOp → SomneoState
  | [] => st
  | op :: ops => runOps (stepOp st op) ops

/-! ### Accessory constructor

The constructor of `SomneoAccessory` (lines 32–94) wires services and
handlers, calls `updateSensorData()` once, and starts a
`setInterval(..., 60 * 1000)` whose body calls `updateSensorData()`.
Its effects are listed in source order. -/

/-- Host-SDK services touched by the constructor. -/
inductive ServiceKind where
  | accessoryInformation
  | lightbulb
  | temperatureSensor
  | humiditySensor
  | lightSensor
deriving Repr, DecidableEq

/-- Kind of characteristic handler registration (`.on('set'|'get', ...)`). -/
inductive HandlerKind where
  | set
  | get
deriving Repr, DecidableEq

/-- Effects performed by the `SomneoAccessory` constructor. -/
inductive CtorEffect where
  | logInfo
  | setInformationCharacteristic (field : String)
  | getOrAddService (s : ServiceKind)
  | setName (name : String)
  | registerHandler (c : CharKind) (k : HandlerKind)
  /-- the synchronous `this.updateSensorData()` call at line 88 -/
  | callUpdateSensorData
  /-- `setInterval(() => this.updateSensorData(), periodMs)` -/
  | setIntervalUpdateSensorData (periodMs : ℕ)
  /-- a `clearInterval` call (none occurs in the source) -/
  | clearInterval
deriving Repr, DecidableEq

/-- Recognizer for the synchronous `updateSensorData()` call effect. -/
def CtorEffect.isUpdateSensorCall : CtorEffect → Bool
  | .callUpdateSensorData => true
  | _ => false

/-- The periods of all `setInterval` registrations in a constructor
effect trace, in order. -/
def setIntervalPeriods (l : List CtorEffect) : List ℕ :=
  l.filterMap (fun c =>
    match c with
    | .setIntervalUpdateSensorData p => some p
    | _ => none)

/-- The characteristic pushes in an accessory effect trace, in order. -/
def pushedCharacteristics (l : List AccEffect) : List (CharKind × ℚ) :=
  l.filterMap (fun eff =>
    match eff with
    | .pushCharacteristic c v => some (c, v)
    | _ => none)

/-- UPnP metadata stored in `accessory.context.upnpData`. -/
structure UpnpData where
  friendlyName : String
  manufacturer : String
  modelName : String
  UDN : String
deriving Repr, DecidableEq

/-- The effect trace of the `SomneoAccessory` constructor (lines 32–94),
in source order. -/
def constructorEffects (upnp : UpnpData) : List CtorEffect :=
  [ .logInfo,
    .setInformationCharacteristic upnp.manufacturer,
    .setInformationCharacteristic upnp.modelName,
    .setInformationCharacteristic upnp.UDN,
    .getOrAddService .lightbulb,
    .setName upnp.friendlyName,
    .registerHandler .on .set,
    .registerHandler .on .get,
    .registerHandler .brightness .set,
    .getOrAddService .temperatureSensor,
    .registerHandler .currentTemperature .get,
    .getOrAddService .humiditySensor,
    .registerHandler .currentRelativeHumidity .get,
    .getOrAddService .lightSensor,
    .registerHandler .currentAmbientLightLevel .get,
    .callUpdateSensorData,
    .setIntervalUpdateSensorData (60 * 1000) ]

end Somneo

namespace Platform

/-- An accessory restored from the host cache (`this.accessories`,
populated by `configureAccessory`). -/
structure CachedAccessory where
  UUID : String
  displayName : String
deriving Repr, DecidableEq

/-- The platform's mutable discovery state: the restored-accessory list
and the `registered_usns` deduplication list (both start empty in the
`SomneoPlatform` constructor). -/
structure PlatformState where
  accessories : List CachedAccessory
  registered_usns : List String
deriving Repr, DecidableEq

/-- The two lists start empty (`= []` initializers at lines 20–21). -/
def initialPlatformState : PlatformState :=
  { accessories := [], registered_usns := [] }

/-- `SomneoPlatform.configureAccessory` (lines 45–50): log and push the
restored accessory onto `this.accessories`. -/
def configureAccessory (st : PlatformState) (a : CachedAccessory) : PlatformState :=
  { st with accessories := st.accessories ++ [a] }

/-- One `<device>` entry of a parsed UPnP description document
(`result.root.device[i]`). -/
structure XmlDevice where
  friendlyName : String
  manufacturer : String
  modelName : String
  UDN : String
deriving Repr, DecidableEq

/-- The parsed UPnP description document: `result.root.device` is a list
of device entries. -/
structure XmlRoot where
  device : List XmlDevice
deriving Repr, DecidableEq

/-- Outcome of `instance.get('https://<addr>/upnp/description.xml')`
followed by `xml2js.parseString`: the promise rejects (HTTP failure, or
a parse error making the `.then` body throw into the `.catch`), or it
yields a parsed document. -/
inductive FetchResult where
  | failure
  | success (xml : XmlRoot)
deriving Repr, DecidableEq

/-- One SSDP response event as the `client.on('response', ...)` handler
sees it, together with what the (lazily issued) description fetch for
this response would produce. -/
structure SsdpEvent where
  usn : String
  address : String
  fetch : FetchResult
deriving Repr, DecidableEq

/-- Observable effects of the SSDP response handler. -/
inductive PEffect where
  | logInfo
  | logError
  /-- `instance.get('https://<addr>/upnp/description.xml')` -/
  | httpGet (url : String)
  /-- `new this.api.platformAccessory(displayName, uuid)` -/
  | createAccessory (displayName : String) (uuid : String)
  /-- `new SomneoAccessory(this, accessory)` -/
  | attachHandler (uuid : String)
  /-- `this.api.registerPlatformAccessories(..., [accessory])` -/
  | registerAccessory (uuid : String)
deriving Repr, DecidableEq

/-- The dedup guard at line 67:
`if (this.registered_usns.find(usn => usn === headers.USN))`.
`Array.prototype.find` returns the first matching element or
`undefined`, and the `if` tests its JavaScript truthiness, so an empty
string found in the list does NOT pass the guard. -/
def usnGuard (registered : List String) (usn : String) : Bool :=
  match registered.find? (fun u => u == usn) with
  | some u => u != ""
  | none => false

/-- The body of `client.on('response', ...)` (lines 66–128): skip when
the dedup guard passes; otherwise push the USN, derive the UUID from it,
and either re-attach a handler to a cached accessory or fetch the UPnP
description and create/register a new accessory.  `generate` stands for
`this.api.hap.uuid.generate`.  Registration does not modify
`this.accessories` (only `configureAccessory` pushes onto it). -/
def handleResponse (generate : String → String) (st : PlatformState)
    (e : SsdpEvent) : PlatformState × List PEffect :=
  if usnGuard st.registered_usns e.usn then
    (st, [])
  else
    let st1 := { st with registered_usns := st.registered_usns ++ [e.usn] }
    let uuid := generate e.usn
    match st1.accessories.find? (fun a => a.UUID == uuid) with
    | some _ =>
      (st1, [.logInfo, .logInfo, .attachHandler uuid])
    | none =>
      let endpoint := "https://" ++ e.address ++ "/upnp/description.xml"
      match e.fetch with
      | .failure =>
        (st1, [.logInfo, .httpGet endpoint, .logError])
      | .success xml =>
        match xml.device.head? with
        | some d =>
          (st1, [.logInfo, .httpGet endpoint, .logInfo,
                 .createAccessory d.friendlyName uuid,
                 .attachHandler uuid,
                 .registerAccessory uuid])
        | none =>
          -- `result.root.device[0].friendlyName` on an empty array throws;
          -- the throw lands in the promise `.catch` and is logged.
          (st1, [.logInfo, .httpGet endpoint, .logInfo, .logError])

/-- Platform state after a sequence of SSDP response events. -/
def processEvents (generate : String → String) (st : PlatformState) :
    List SsdpEvent → PlatformState
  | [] => st
  | e :: es => processEvents generate (handleResponse generate st e).1 es

end Platform

/-! ## Theorems -/

section Lemmas

open Platform

/-- The dedup guard passes exactly when the USN is already recorded and
is non-empty (JavaScript truthiness of the found string). -/
theorem usnGuard_iff (l : List String) (u : String) :
    usnGuard l u = true ↔ u ∈ l ∧ u ≠ "" := by
  unfold usnGuard
  rcases h : l.find? (fun x => x == u) with _ | v
  · simp only [Bool.false_eq_true, false_iff, not_and]
    intro hm
    have := List.find?_eq_none.mp h u hm
    simp at this
  · have hv := List.find?_some h
    have hm : v ∈ l := List.mem_of_find?_eq_some h
    simp only [beq_iff_eq] at hv
    subst hv
    simp [hm, bne_iff_ne]

/-- The state component of the response handler: unchanged when the
guard passes, otherwise the USN is appended to `registered_usns`. -/
theorem handleResponse_fst (g : String → String) (st : PlatformState) (e : SsdpEvent) :
    (handleResponse g st e).1 =
      if usnGuard st.registered_usns e.usn then st
      else { st with registered_usns := st.registered_usns ++ [e.usn] } := by
  unfold handleResponse
  split
  · rfl
  · dsimp only
    cases hf : List.find? (fun a => a.UUID == g e.usn) st.accessories with
    | some a => simp [hf]
    | none =>
      cases hfe : e.fetch with
      | failure => simp [hf, hfe]
      | success xml =>
        cases hh : xml.device.head? with
        | some d => simp [hf, hfe, hh]
        | none => simp [hf, hfe, hh]

/-- After handling a response, its USN is recorded. -/
theorem mem_after_handle (g : String → String) (st : PlatformState) (e : SsdpEvent) :
    e.usn ∈ (handleResponse g st e).1.registered_usns := by
  rw [handleResponse_fst]
  split
  · rename_i h
    exact ((usnGuard_iff _ _).mp h).1
  · simp

/-- Handling a response never removes a recorded USN. -/
theorem mem_handle_mono (g : String → String) (st : PlatformState) (e : SsdpEvent)
    {u : String} (hu : u ∈ st.registered_usns) :
    u ∈ (handleResponse g st e).1.registered_usns := by
  rw [handleResponse_fst]
  split
  · exact hu
  · simp [hu]

/-- Processing more events never removes a recorded USN. -/
theorem mem_processEvents_mono (g : String → String) (es : List SsdpEvent)
    (st : PlatformState) {u : String} (hu : u ∈ st.registered_usns) :
    u ∈ (processEvents g st es).registered_usns := by
  induction es generalizing st with
  | nil => exact hu
  | cons e es ih => exact ih _ (mem_handle_mono g st e hu)

/-- After processing a sequence containing an event, that event's USN is
recorded. -/
theorem mem_processEvents_of_event (g : String → String) (st : PlatformState)
    (pre : List SsdpEvent) (e : SsdpEvent) (mid : List SsdpEvent) :
    e.usn ∈ (processEvents g st (pre ++ e :: mid)).registered_usns := by
  induction pre generalizing st with
  | nil =>
    simp only [List.nil_append, processEvents]
    exact mem_processEvents_mono g mid _ (mem_after_handle g st e)
  | cons p ps ih =>
    simp only [List.cons_append, processEvents]
    exact ih _

/-- A response whose non-empty USN is already recorded is a no-op. -/
theorem handle_noop_of_mem (g : String → String) (st : PlatformState) (e : SsdpEvent)
    (hne : e.usn ≠ "") (hmem : e.usn ∈ st.registered_usns) :
    handleResponse g st e = (st, []) := by
  unfold handleResponse
  rw [if_pos ((usnGuard_iff _ _).mpr ⟨hmem, hne⟩)]

end Lemmas

/-- C1: the claim as stated is false at the empty USN.  `Array.prototype.find`
returns the found element and the `if` tests its truthiness, so an empty
string recorded in `registered_usns` never passes the guard: a second SSDP
response with `USN = ""` pushes `""` again (dedup set changed) and triggers
accessory creation and registration a second time. -/
theorem c1_empty_usn_counterexample :
    (Platform.handleResponse id
        (Platform.handleResponse id Platform.initialPlatformState
            { usn := "", address := "10.0.0.2",
              fetch := .success { device := [⟨"Somneo", "Philips", "Wake-up Light", "uuid:0"⟩] } }).1
        { usn := "", address := "10.0.0.2",
          fetch := .success { device := [⟨"Somneo", "Philips", "Wake-up Light", "uuid:0"⟩] } }).1.registered_usns = ["", ""] ∧
    (Platform.handleResponse id
        (Platform.handleResponse id Platform.initialPlatformState
            { usn := "", address := "10.0.0.2",
              fetch := .success { device := [⟨"Somneo", "Philips", "Wake-up Light", "uuid:0"⟩] } }).1
        { usn := "", address := "10.0.0.2",
          fetch := .success { device := [⟨"Somneo", "Philips", "Wake-up Light", "uuid:0"⟩] } }).2 =
      [.logInfo, .httpGet "https://10.0.0.2/upnp/description.xml", .logInfo,
       .createAccessory "Somneo" "", .attachHandler "",
       .registerAccessory ""] := by
  constructor
  · rfl
  · rfl

/-- C1 (amended: restricted to non-empty USNs): after any event sequence
containing a response with a given non-empty USN, every later response
with the same USN is a no-op — the platform state (accessory list and
deduplication set) is unchanged and no effect is produced, so only the
first response with that USN can trigger accessory creation or
restoration. -/
theorem c1_duplicate_ssdp_response_is_noop (g : String → String)
    (st0 : Platform.PlatformState) (pre mid : List Platform.SsdpEvent)
    (e e' : Platform.SsdpEvent) (hne : e.usn ≠ "") (hsame : e'.usn = e.usn) :
    Platform.handleResponse g (Platform.processEvents g st0 (pre ++ e :: mid)) e' =
      (Platform.processEvents g st0 (pre ++ e :: mid), []) := by
  apply handle_noop_of_mem
  · rw [hsame]
    exact hne
  · rw [hsame]
    exact mem_processEvents_of_event g st0 pre e mid

/-- Witness for C1's theorem: a concrete second response with the same
non-empty USN (even one whose description fetch would succeed) is a no-op. -/
theorem c1_duplicate_ssdp_response_is_noop_witness :
    ({ usn := "uuid:somneo-1", address := "10.0.0.2",
       fetch := .failure } : Platform.SsdpEvent).usn ≠ "" ∧
    ({ usn := "uuid:somneo-1", address := "10.0.0.3",
       fetch := .success { device := [⟨"Somneo", "Philips", "Wake-up Light", "uuid:somneo-1"⟩] } } : Platform.SsdpEvent).usn =
      ({ usn := "uuid:somneo-1", address := "10.0.0.2",
         fetch := .failure } : Platform.SsdpEvent).usn ∧
    Platform.handleResponse id
        (Platform.processEvents id Platform.initialPlatformState
          ([] ++ { usn := "uuid:somneo-1", address := "10.0.0.2",
                   fetch := .failure } :: []))
        { usn := "uuid:somneo-1", address := "10.0.0.3",
          fetch := .success { device := [⟨"Somneo", "Philips", "Wake-up Light", "uuid:somneo-1"⟩] } } =
      (Platform.processEvents id Platform.initialPlatformState
        ([] ++ { usn := "uuid:somneo-1", address := "10.0.0.2",
                 fetch := .failure } :: []), []) :=
  ⟨by decide, rfl,
   c1_duplicate_ssdp_response_is_noop id Platform.initialPlatformState [] []
     { usn := "uuid:somneo-1", address := "10.0.0.2", fetch := .failure }
     { usn := "uuid:somneo-1", address := "10.0.0.3",
       fetch := .success { device := [⟨"Somneo", "Philips", "Wake-up Light", "uuid:somneo-1"⟩] } }
     (by decide) rfl⟩

/-- C2: the claim as stated is false — the USN is pushed onto
`registered_usns` *before* the description fetch, so a failed fetch
permanently consumes the identifier: a later response with the same USN
and a successful fetch is a no-op (state unchanged, no effects, no
registration). -/
theorem c2_failed_fetch_counterexample :
    Platform.handleResponse id Platform.initialPlatformState
        { usn := "uuid:dev1", address := "10.0.0.2", fetch := .failure } =
      ({ accessories := [], registered_usns := ["uuid:dev1"] },
       [.logInfo, .httpGet "https://10.0.0.2/upnp/description.xml",
        .logError]) ∧
    Platform.handleResponse id
        { accessories := [], registered_usns := ["uuid:dev1"] }
        { usn := "uuid:dev1", address := "10.0.0.2",
          fetch := .success { device := [⟨"Somneo", "Philips", "Wake-up Light", "uuid:dev1"⟩] } } =
      ({ accessories := [], registered_usns := ["uuid:dev1"] }, []) := by
  constructor
  · rfl
  · rfl

/-- C2 (amended): if the UPnP description fetch or XML parse for a
previously unseen device fails, no accessory is created or restored for
that SSDP response and the failure is only logged; but the USN has
already been recorded in the deduplication set, so a later response with
the same (non-empty) USN is a no-op — the failed attempt permanently
consumes the identifier for the session. -/
theorem c2_failed_fetch_consumes_usn (g : String → String)
    (st : Platform.PlatformState) (e e' : Platform.SsdpEvent)
    (hguard : Platform.usnGuard st.registered_usns e.usn = false)
    (hcache : st.accessories.find? (fun a => a.UUID == g e.usn) = none)
    (hfail : e.fetch = .failure) (hne : e.usn ≠ "")
    (hsame : e'.usn = e.usn) :
    Platform.handleResponse g st e =
      ({ st with registered_usns := st.registered_usns ++ [e.usn] },
       [.logInfo, .httpGet ("https://" ++ e.address ++ "/upnp/description.xml"),
        .logError]) ∧
    Platform.handleResponse g
        { st with registered_usns := st.registered_usns ++ [e.usn] } e' =
      ({ st with registered_usns := st.registered_usns ++ [e.usn] }, []) := by
  constructor
  · unfold Platform.handleResponse
    rw [if_neg (by simp [hguard])]
    dsimp only
    rw [hcache, hfail]
  · apply handle_noop_of_mem
    · rw [hsame]
      exact hne
    · rw [hsame]
      simp

/-- Witness for C2's theorem at a concrete state and pair of responses. -/
theorem c2_failed_fetch_consumes_usn_witness :
    Platform.usnGuard Platform.initialPlatformState.registered_usns
        ({ usn := "uuid:dev1", address := "10.0.0.2",
           fetch := .failure } : Platform.SsdpEvent).usn = false ∧
    Platform.initialPlatformState.accessories.find?
        (fun a =>
          a.UUID == id ({ usn := "uuid:dev1", address := "10.0.0.2",
                          fetch := .failure } : Platform.SsdpEvent).usn) = none ∧
    Platform.handleResponse id Platform.initialPlatformState
        { usn := "uuid:dev1", address := "10.0.0.2", fetch := .failure } =
      ({ Platform.initialPlatformState with
          registered_usns := Platform.initialPlatformState.registered_usns ++ ["uuid:dev1"] },
       [.logInfo, .httpGet ("https://" ++ "10.0.0.2" ++ "/upnp/description.xml"),
        .logError]) ∧
    Platform.handleResponse id
        { Platform.initialPlatformState with
            registered_usns := Platform.initialPlatformState.registered_usns ++ ["uuid:dev1"] }
        { usn := "uuid:dev1", address := "10.0.0.9",
          fetch := .success { device := [⟨"Somneo", "Philips", "Wake-up Light", "uuid:dev1"⟩] } } =
      ({ Platform.initialPlatformState with
          registered_usns := Platform.initialPlatformState.registered_usns ++ ["uuid:dev1"] }, []) :=
  ⟨by decide, by decide,
   (c2_failed_fetch_consumes_usn id Platform.initialPlatformState
      { usn := "uuid:dev1", address := "10.0.0.2", fetch := .failure }
      { usn := "uuid:dev1", address := "10.0.0.9",
        fetch := .success { device := [⟨"Somneo", "Philips", "Wake-up Light", "uuid:dev1"⟩] } }
      (by decide) (by decide) rfl (by decide) rfl).1,
   (c2_failed_fetch_consumes_usn id Platform.initialPlatformState
      { usn := "uuid:dev1", address := "10.0.0.2", fetch := .failure }
      { usn := "uuid:dev1", address := "10.0.0.9",
        fetch := .success { device := [⟨"Somneo", "Philips", "Wake-up Light", "uuid:dev1"⟩] } }
      (by decide) (by decide) rfl (by decide) rfl).2⟩

/-- Dispatching operations that contain no successful poll leaves the
temperature, humidity and light-level fields unchanged. -/
theorem runOps_preserves_sensor_fields (ops : List Somneo.AccOp) :
    ∀ st : Somneo.SomneoState, (∀ o ∈ ops, o.isSuccessPoll = false) →
      (Somneo.runOps st ops).Temperature = st.Temperature ∧
      (Somneo.runOps st ops).Humidity = st.Humidity ∧
      (Somneo.runOps st ops).LightLevel = st.LightLevel := by
  induction ops with
  | nil =>
    intro st _
    exact ⟨rfl, rfl, rfl⟩
  | cons op ops ih =>
    intro st h
    have hop : op.isSuccessPoll = false := h op (List.mem_cons_self _ _)
    have hstep : (Somneo.stepOp st op).Temperature = st.Temperature ∧
        (Somneo.stepOp st op).Humidity = st.Humidity ∧
        (Somneo.stepOp st op).LightLevel = st.LightLevel := by
      cases op with
      | setOn v => exact ⟨rfl, rfl, rfl⟩
      | setBrightness v => exact ⟨rfl, rfl, rfl⟩
      | poll a res =>
        cases res with
        | failure => exact ⟨rfl, rfl, rfl⟩
        | success r => simp [Somneo.AccOp.isSuccessPoll] at hop
    have htail := ih (Somneo.stepOp st op)
      (fun o ho => h o (List.mem_cons_of_mem _ ho))
    simp only [Somneo.runOps]
    exact ⟨htail.1.trans hstep.1, htail.2.1.trans hstep.2.1,
           htail.2.2.trans hstep.2.2⟩

/-- C3: after a successful poll whose body is
`{mstmp: 21.5, msrhu: 45, mslux: 120, mssnd: 0}` (21.5 = 43/2), every
subsequent temperature, humidity and light-level read returns 21.5, 45
and 120 respectively, across any further operations that are not a
successful poll (writes, failed polls) — i.e. until the next successful
poll overwrites the stored values. -/
theorem c3_polled_values_served_until_overwritten (addr : String)
    (st : Somneo.SomneoState) (ops : List Somneo.AccOp)
    (h : ops.all (fun o => !o.isSuccessPoll) = true) :
    Somneo.getTemperature (Somneo.runOps
        (Somneo.updateSensorData addr st (.success ⟨43/2, 45, 120, 0⟩)).1 ops) =
      [.logInfo, .callbackGet (.q (43/2))] ∧
    Somneo.getHumidity (Somneo.runOps
        (Somneo.updateSensorData addr st (.success ⟨43/2, 45, 120, 0⟩)).1 ops) =
      [.logInfo, .callbackGet (.q 45)] ∧
    Somneo.getLightLevel (Somneo.runOps
        (Somneo.updateSensorData addr st (.success ⟨43/2, 45, 120, 0⟩)).1 ops) =
      [.logInfo, .callbackGet (.q 120)] := by
  have h' : ∀ o ∈ ops, o.isSuccessPoll = false := by
    intro o ho
    simpa using List.all_eq_true.mp h o ho
  have hp := runOps_preserves_sensor_fields ops
    (Somneo.updateSensorData addr st (.success ⟨43/2, 45, 120, 0⟩)).1 h'
  refine ⟨?_, ?_, ?_⟩ <;>
    simp only [Somneo.getTemperature, Somneo.getHumidity, Somneo.getLightLevel,
      hp.1, hp.2.1, hp.2.2] <;>
    rfl

/-- Witness for C3 at a concrete state and operation sequence (a power
write, a brightness write and a failed poll between the poll and the
reads). -/
theorem c3_polled_values_served_until_overwritten_witness :
    (([.setOn true, .setBrightness 55, .poll "10.0.0.2" .failure] :
        List Somneo.AccOp).all (fun o => !o.isSuccessPoll) = true) ∧
    (Somneo.getTemperature (Somneo.runOps
        (Somneo.updateSensorData "10.0.0.2" Somneo.initialSomneoState
          (.success ⟨43/2, 45, 120, 0⟩)).1
        [.setOn true, .setBrightness 55, .poll "10.0.0.2" .failure]) =
      [.logInfo, .callbackGet (.q (43/2))] ∧
    Somneo.getHumidity (Somneo.runOps
        (Somneo.updateSensorData "10.0.0.2" Somneo.initialSomneoState
          (.success ⟨43/2, 45, 120, 0⟩)).1
        [.setOn true, .setBrightness 55, .poll "10.0.0.2" .failure]) =
      [.logInfo, .callbackGet (.q 45)] ∧
    Somneo.getLightLevel (Somneo.runOps
        (Somneo.updateSensorData "10.0.0.2" Somneo.initialSomneoState
          (.success ⟨43/2, 45, 120, 0⟩)).1
        [.setOn true, .setBrightness 55, .poll "10.0.0.2" .failure]) =
      [.logInfo, .callbackGet (.q 120)]) :=
  ⟨by decide,
   c3_polled_values_served_until_overwritten "10.0.0.2"
     Somneo.initialSomneoState
     [.setOn true, .setBrightness 55, .poll "10.0.0.2" .failure] (by decide)⟩

/-- C4: a failed sensor poll leaves the whole accessory state exactly as
it was (its only effects are the HTTP request and a log line), so all
subsequent reads return the previously stored values. -/
theorem c4_failed_poll_preserves_state (addr : String)
    (st : Somneo.SomneoState) :
    Somneo.updateSensorData addr st .failure =
      (st, [.httpGet ("https://" ++ addr ++ "/di/v1/products/1/wusrd"),
            .logInfo]) ∧
    Somneo.getTemperature (Somneo.updateSensorData addr st .failure).1 =
      Somneo.getTemperature st ∧
    Somneo.getHumidity (Somneo.updateSensorData addr st .failure).1 =
      Somneo.getHumidity st ∧
    Somneo.getLightLevel (Somneo.updateSensorData addr st .failure).1 =
      Somneo.getLightLevel st ∧
    Somneo.getOn (Somneo.updateSensorData addr st .failure).1 =
      Somneo.getOn st :=
  ⟨rfl, rfl, rfl, rfl, rfl⟩

/-- C5: a brightness write changes only the `Brightness` field and a
power write changes only the `On` field; no write affects any other
field. -/
theorem c5_writes_touch_only_their_field (st : Somneo.SomneoState)
    (v : ℚ) (b : Bool) :
    ((Somneo.setBrightness st v).1 = { st with Brightness := v } ∧
     (Somneo.setBrightness st v).1.On = st.On ∧
     (Somneo.setBrightness st v).1.Temperature = st.Temperature ∧
     (Somneo.setBrightness st v).1.Humidity = st.Humidity ∧
     (Somneo.setBrightness st v).1.LightLevel = st.LightLevel ∧
     (Somneo.setBrightness st v).1.Sound = st.Sound ∧
     (Somneo.setBrightness st v).1.Brightness = v) ∧
    ((Somneo.setOn st b).1 = { st with On := b } ∧
     (Somneo.setOn st b).1.Brightness = st.Brightness ∧
     (Somneo.setOn st b).1.Temperature = st.Temperature ∧
     (Somneo.setOn st b).1.Humidity = st.Humidity ∧
     (Somneo.setOn st b).1.LightLevel = st.LightLevel ∧
     (Somneo.setOn st b).1.Sound = st.Sound ∧
     (Somneo.setOn st b).1.On = b) :=
  ⟨⟨rfl, rfl, rfl, rfl, rfl, rfl, rfl⟩, ⟨rfl, rfl, rfl, rfl, rfl, rfl, rfl⟩⟩

/-- C6: the power and brightness SET handlers issue no HTTP request: the
full effect list is one log line and a success callback, and the state
change is the single written field. -/
theorem c6_writes_issue_no_network_call (st : Somneo.SomneoState)
    (v : ℚ) (b : Bool) :
    (Somneo.setOn st b).2 = [.logInfo, .callbackSet] ∧
    (Somneo.setBrightness st v).2 = [.logInfo, .callbackSet] ∧
    (∀ u : String, Somneo.AccEffect.httpGet u ∉ (Somneo.setOn st b).2) ∧
    (∀ u : String, Somneo.AccEffect.httpGet u ∉ (Somneo.setBrightness st v).2) ∧
    (Somneo.setOn st b).1 = { st with On := b } ∧
    (Somneo.setBrightness st v).1 = { st with Brightness := v } := by
  refine ⟨rfl, rfl, ?_, ?_, rfl, rfl⟩ <;>
    intro u <;> simp [Somneo.setOn, Somneo.setBrightness]

/-- C7: a response from a previously unseen device whose description
fetch yields a document whose first device entry has friendly name
"Somneo" leads to creating and registering an accessory whose display
name is the string "Somneo". -/
theorem c7_new_accessory_display_name (g : String → String)
    (st : Platform.PlatformState) (e : Platform.SsdpEvent)
    (xml : Platform.XmlRoot) (d : Platform.XmlDevice)
    (hguard : Platform.usnGuard st.registered_usns e.usn = false)
    (hcache : st.accessories.find? (fun a => a.UUID == g e.usn) = none)
    (hfetch : e.fetch = .success xml)
    (hhead : xml.device.head? = some d)
    (hname : d.friendlyName = "Somneo") :
    Platform.handleResponse g st e =
      ({ st with registered_usns := st.registered_usns ++ [e.usn] },
       [.logInfo,
        .httpGet ("https://" ++ e.address ++ "/upnp/description.xml"),
        .logInfo, .createAccessory "Somneo" (g e.usn),
        .attachHandler (g e.usn), .registerAccessory (g e.usn)]) := by
  unfold Platform.handleResponse
  simp [hguard, hcache, hfetch, hhead, hname]

/-- Witness for C7: a concrete first response from an unseen device with
friendly name "Somneo". -/
theorem c7_new_accessory_display_name_witness :
    Platform.usnGuard Platform.initialPlatformState.registered_usns
        "uuid:dev7" = false ∧
    Platform.handleResponse id Platform.initialPlatformState
        { usn := "uuid:dev7", address := "10.0.0.5",
          fetch := .success { device :=
            [⟨"Somneo", "Philips", "Wake-up Light", "uuid:dev7"⟩] } } =
      ({ Platform.initialPlatformState with
          registered_usns :=
            Platform.initialPlatformState.registered_usns ++ ["uuid:dev7"] },
       [.logInfo,
        .httpGet ("https://" ++ "10.0.0.5" ++ "/upnp/description.xml"),
        .logInfo, .createAccessory "Somneo" (id "uuid:dev7"),
        .attachHandler (id "uuid:dev7"),
        .registerAccessory (id "uuid:dev7")]) :=
  ⟨by decide,
   c7_new_accessory_display_name id Platform.initialPlatformState
     { usn := "uuid:dev7", address := "10.0.0.5",
       fetch := .success { device :=
         [⟨"Somneo", "Philips", "Wake-up Light", "uuid:dev7"⟩] } }
     { device := [⟨"Somneo", "Philips", "Wake-up Light", "uuid:dev7"⟩] }
     ⟨"Somneo", "Philips", "Wake-up Light", "uuid:dev7"⟩
     (by decide) rfl rfl rfl rfl⟩

/-- C8: a newly constructed accessory's state starts with the on/off
flag false, brightness 100, and temperature, humidity, light level and
sound all 0. -/
theorem c8_initial_accessory_state :
    Somneo.initialSomneoState.On = false ∧
    Somneo.initialSomneoState.Brightness = 100 ∧
    Somneo.initialSomneoState.Temperature = 0 ∧
    Somneo.initialSomneoState.Humidity = 0 ∧
    Somneo.initialSomneoState.LightLevel = 0 ∧
    Somneo.initialSomneoState.Sound = 0 :=
  ⟨rfl, rfl, rfl, rfl, rfl, rfl⟩

/-- C9: the constructor calls `updateSensorData` synchronously exactly
once, registers exactly one recurring timer, whose period is
60 * 1000 ms and whose body is `updateSensorData`, as its final two
steps (immediate call, then the interval), and never cancels a timer. -/
theorem c9_poll_once_then_60s_interval (upnp : Somneo.UpnpData) :
    (Somneo.constructorEffects upnp).filter
        Somneo.CtorEffect.isUpdateSensorCall =
      [Somneo.CtorEffect.callUpdateSensorData] ∧
    Somneo.setIntervalPeriods (Somneo.constructorEffects upnp) =
      [60 * 1000] ∧
    Somneo.CtorEffect.clearInterval ∉ Somneo.constructorEffects upnp ∧
    (Somneo.constructorEffects upnp).drop 15 =
      [Somneo.CtorEffect.callUpdateSensorData,
       Somneo.CtorEffect.setIntervalUpdateSensorData (60 * 1000)] := by
  refine ⟨rfl, rfl, ?_, rfl⟩
  simp [Somneo.constructorEffects]

/-- C10: a successful poll stores the `mssnd` field into the `Sound`
state field, but the characteristic pushes are exactly temperature,
humidity and light level (sound is never pushed), and no GET handler's
result depends on the `Sound` field. -/
theorem c10_sound_stored_but_never_exposed (addr : String)
    (st : Somneo.SomneoState) (r : Somneo.SensorResponse) (q : ℚ) :
    (Somneo.updateSensorData addr st (.success r)).1.Sound = r.mssnd ∧
    Somneo.pushedCharacteristics
        (Somneo.updateSensorData addr st (.success r)).2 =
      [(.currentTemperature, r.mstmp), (.currentRelativeHumidity, r.msrhu),
       (.currentAmbientLightLevel, r.mslux)] ∧
    Somneo.getTemperature { st with Sound := q } = Somneo.getTemperature st ∧
    Somneo.getHumidity { st with Sound := q } = Somneo.getHumidity st ∧
    Somneo.getLightLevel { st with Sound := q } = Somneo.getLightLevel st ∧
    Somneo.getOn { st with Sound := q } = Somneo.getOn st :=
  ⟨rfl, rfl, rfl, rfl, rfl, rfl⟩
